import Mathlib

/-!
# goprismic `proxy` package: a shallow embedding of `proxy/proxy.go`

The Go file declares the `Config` and `Proxy` structs, the constructor `New`, the document
lookups `GetDocument` / `GetDocumentBy`, and the master-ref refresh (`Refresh`, `loopRefresh`).

Modelling conventions.

* Go pointers (`*Proxy`, `*Cache`, `*goprismic.Api`) are addresses (`Nat`) into a `World`
  holding the pointees; a method that mutates through a pointer maps a `World` to a `World`.
* `time.Duration` and `int` are integers; only comparisons with `0` are performed on them here.
* A Go `error` value is `Option Error` (`none` is `nil`); a possibly-nil pointer result is an
  `Option`.
* A call that can end in a run-time panic returns an `Outcome`.
* The collaborators that are not defined in `proxy.go` (the upstream client of the parent
  package, the search form, the network) are parameters of the functions that call them.
-/

namespace GoprismicProxy

/-! ## Data model -/

/-- Go `time.Duration`: a signed count of nanoseconds. -/
abbrev Duration := Int

/-- Go `time.Minute`, in nanoseconds. -/
def Minute : Duration := 60 * 1000000000

/-- Go `error` values that are not `nil`. -/
structure Error where
  msg : String
deriving DecidableEq, Repr

/-- Struct `Config` of `proxy.go` (lines 12-21). -/
structure Config where
  CacheSize : Int
  TTL : Duration
  MasterRefresh : Duration
  debug : Bool
deriving DecidableEq, Repr

/-- Modelled from the spec: `goprismic.Config` of the parent package is not part of
`proxy.go`; the only field `New` reads from it is `Debug`. -/
structure ApiConfig where
  Debug : Bool
deriving DecidableEq, Repr

/-- Modelled from the spec: `goprismic.Api`, the upstream client ("returning the current master
reference", "forcing a refresh of its internal reference state"). `masterRef` is what
`GetMasterRef()` returns. -/
structure Api where
  masterRef : String
deriving DecidableEq, Repr

/-- Modelled from the spec: the cache statistics ("monotonically increasing counters (hits,
misses, evictions)"); the struct `Stats` is declared outside `proxy.go`. -/
structure Stats where
  hits : Nat
  misses : Nat
  evictions : Nat
deriving DecidableEq, Repr

/-- Modelled from the spec: a `CacheEntry` (fingerprint, value, expiry, epoch stamp); declared
outside `proxy.go`. -/
structure CacheEntry where
  fingerprint : String
  value : String
  expiresAt : Int
  epoch : String
deriving DecidableEq, Repr

/-- Modelled from the spec: the struct `Cache` is declared outside `proxy.go`; `proxy.go` itself
reads and writes its fields `revision` and `Stats`, the other fields follow the spec's `Cache`
(`entries`, `maxSize`, `ttl`). -/
structure Cache where
  entries : List CacheEntry
  maxSize : Int
  ttl : Duration
  revision : String
  Stats : Stats
deriving DecidableEq, Repr

/-- Modelled from the spec: `NewCache(size, ttl)` is defined outside `proxy.go`; it yields an
empty store with zeroed counters and the zero-value revision. -/
def NewCache (size : Int) (ttl : Duration) : Cache :=
  { entries := [], maxSize := size, ttl := ttl, revision := "", Stats := ⟨0, 0, 0⟩ }

/-- Struct `Proxy` of `proxy.go` (lines 23-28): two pointers and the configuration. -/
structure Proxy where
  cache : Nat
  api : Nat
  Config : Config
deriving DecidableEq, Repr

/-- The mutable world the package runs in: the pointees of every `*Proxy`, `*Cache` and
`*goprismic.Api`, the next free address, the proxies whose `loopRefresh` goroutine has been
started, and the lines written with `log.Printf`. -/
structure World where
  proxies : Nat → Proxy
  caches : Nat → Cache
  apis : Nat → Api
  next : Nat
  loops : List Nat
  log : List String

/-- Modelled from the spec: a `goprismic.Document`; the lookups only hand it through. -/
structure Document where
  Id : String
deriving DecidableEq, Repr

/-- Modelled from the spec: `goprismic.SearchResult` ("a total-count and an ordered sequence of
matched documents"); `proxy.go` reads `TotalResults` and `Results`. -/
structure SearchResult where
  TotalResults : Int
  Results : List Document
deriving DecidableEq, Repr

/-- How a Go call ends: a normal return, or a run-time panic. -/
inductive Outcome (α : Type) where
  | returns (a : α)
  | panics (msg : String)
deriving DecidableEq, Repr

/-- What `Submit()` hands back: the pair `(*SearchResult, error)`. -/
abbrev SubmitResult := Option SearchResult × Option Error

/-! ## Document lookups (`proxy.go`, lines 61-79) -/

/-- The query string of `GetDocument` (line 63). -/
def documentQuery (id : String) : String :=
  "[[:d = at(document.id, \"" ++ id ++ "\")]]"

/-- The query string of `GetDocumentBy` (line 73): `fmt.Sprintf` with the verbs `%s, %s, %v, %s`
applied to `docType, field, value, docType`; `rendered` is the `%v` rendering of `value`. -/
def documentByQuery (docType field rendered : String) : String :=
  "[[:d = at(my." ++ docType ++ "." ++ field ++ ", \"" ++ rendered
    ++ "\")][:d = any(document.type, [\"" ++ docType ++ "\"])]]"

/-- The shared tail of both lookups (lines 64-67 and 75-78):
`if err != nil || sr.TotalResults == 0 { return nil, err }; return &sr.Results[0], nil`.
The `||` short-circuits, so `sr` is dereferenced only when `err` is `nil`. -/
def firstResult (r : SubmitResult) : Outcome (Option Document × Option Error) :=
  match r.2 with
  | some e => .returns (none, some e)
  | none =>
    match r.1 with
    | none => .panics "invalid memory address or nil pointer dereference"
    | some sr =>
      if sr.TotalResults == 0 then .returns (none, r.2)
      else
        match sr.Results with
        | [] => .panics "index out of range [0] with length 0"
        | d :: _ => .returns (some d, none)

/-- `Proxy.GetDocument` (lines 62-69). `submit form query` stands for
`p.Search().Form(form).Query(query).Submit()`. -/
def GetDocument (submit : String → String → SubmitResult) (id : String) :
    Outcome (Option Document × Option Error) :=
  firstResult (submit "everything" (documentQuery id))

/-- `Proxy.GetDocumentBy` (lines 72-79). `fmtV` is the `%v` rendering of the `interface{}`
argument. -/
def GetDocumentBy {V : Type} (fmtV : V → String) (submit : String → String → SubmitResult)
    (docType field : String) (value : V) : Outcome (Option Document × Option Error) :=
  firstResult (submit "everything" (documentByQuery docType field (fmtV value)))

/-! ## Construction and refresh (`proxy.go`, lines 33-47 and 88-108) -/

/-- `Proxy.Refresh` (lines 89-94). `upstream` is the effect of `p.api.Refresh()` on the client
(whatever the network answered); the boolean is `oldRev != p.cache.revision`. -/
def Refresh (upstream : Api → Api) (p : Nat) (w : World) : Bool × World :=
  let a := (w.proxies p).api
  let c := (w.proxies p).cache
  let w1 : World := { w with apis := Function.update w.apis a (upstream (w.apis a)) }
  let oldRev := (w1.caches c).revision
  let w2 : World :=
    { w1 with caches :=
        Function.update w1.caches c { w1.caches c with revision := (w1.apis a).masterRef } }
  (oldRev != (w2.caches c).revision, w2)

/-- The duration `loopRefresh` hands to `time.Tick` (line 98). -/
def loopRefreshPeriod (p : Nat) (w : World) : Duration :=
  (w.proxies p).Config.MasterRefresh

/-- One iteration of the `for { select { case <-tick: ... } }` loop of `loopRefresh`
(lines 101-104): `if p.Refresh() && p.Config.debug { log.Printf(...) }`. -/
def loopRefreshTick (upstream : Api → Api) (p : Nat) (w : World) : World :=
  let r := Refresh upstream p w
  if r.1 && (r.2.proxies p).Config.debug then
    { r.2 with log := r.2.log ++ ["Prismic - refreshing master ref"] }
  else r.2

/-- The body of `loopRefresh` over the ticks that have fired so far: one upstream answer per
tick, oldest first. -/
def loopRefresh (p : Nat) : List (Api → Api) → World → World
  | [], w => w
  | upstream :: rest, w => loopRefresh p rest (loopRefreshTick upstream p w)

/-- `New` (lines 33-47). `get` is `goprismic.Get`; on success the client it returns is placed at
a fresh address, then the cache and the proxy are allocated and the refresh goroutine is
recorded as started. The result is the pair `(*Proxy, error)` and the new world. -/
def New (get : String → String → ApiConfig → Except Error Api) (u accessToken : String)
    (apiCfg : ApiConfig) (cfg : Config) (w : World) : (Option Nat × Option Error) × World :=
  match get u accessToken apiCfg with
  | .error err => ((none, some err), w)
  | .ok client =>
    let a := w.next
    let w1 : World := { w with apis := Function.update w.apis a client, next := a + 1 }
    let cfg1 : Config := if cfg.MasterRefresh == 0 then { cfg with MasterRefresh := Minute } else cfg
    let cfg2 : Config := { cfg1 with debug := apiCfg.Debug }
    let c := w1.next
    let w2 : World :=
      { w1 with caches := Function.update w1.caches c (NewCache cfg2.CacheSize cfg2.TTL),
                next := c + 1 }
    let w3 : World :=
      { w2 with caches :=
          Function.update w2.caches c { w2.caches c with revision := (w2.apis a).masterRef } }
    let p := w3.next
    let w4 : World :=
      { w3 with proxies := Function.update w3.proxies p { cache := c, api := a, Config := cfg2 },
                next := p + 1 }
    let w5 : World := { w4 with loops := p :: w4.loops }
    ((some p, none), w5)

/-! ## Concrete inputs used by the examples below -/

/-- A world in which nothing has been allocated yet. -/
def emptyWorld : World :=
  { proxies := fun _ => { cache := 0, api := 0, Config := ⟨0, 0, 0, false⟩ },
    caches := fun _ => NewCache 0 0,
    apis := fun _ => ⟨""⟩,
    next := 0, loops := [], log := [] }

/-- A `goprismic.Get` that always succeeds with a client whose master ref is `"ref1"`. -/
def getOk : String → String → ApiConfig → Except Error Api :=
  fun _ _ _ => .ok ⟨"ref1"⟩

/-- A `goprismic.Get` that always fails. -/
def getFail : String → String → ApiConfig → Except Error Api :=
  fun _ _ _ => .error ⟨"unreachable"⟩

/-- The world after `New` succeeded once from `emptyWorld`: client at address 0, cache at 1,
proxy at 2. -/
def oneProxyWorld : World :=
  (New getOk "https://repo.prismic.io/api" "" ⟨true⟩ ⟨10, 0, 0, false⟩ emptyWorld).2

/-- An upstream whose refresh always reports master ref `"ref2"`. -/
def upstreamRef2 : Api → Api := fun _ => ⟨"ref2"⟩

/-- The proxy `p` of world `w` with its `Config.debug` set to `d`, everything else untouched. -/
def withDebug (d : Bool) (p : Nat) (w : World) : World :=
  let old := w.proxies p
  let cfg : Config := { old.Config with debug := d }
  { w with proxies := Function.update w.proxies p ⟨old.cache, old.api, cfg⟩ }

/-! ## Theorems -/

/-- C1: a successful query with zero total results makes `GetDocument` return a nil document
and a nil error. -/
theorem GetDocument_not_found (submit : String → String → SubmitResult) (id : String)
    (sr : SearchResult) (hsub : submit "everything" (documentQuery id) = (some sr, none))
    (hzero : sr.TotalResults = 0) :
    GetDocument submit id = .returns (none, none) := by
  simp [GetDocument, firstResult, hsub, hzero]

theorem GetDocument_not_found_witness :
    GetDocument (fun _ _ => (some ⟨0, []⟩, none)) "doc-123" = .returns (none, none) :=
  GetDocument_not_found (fun _ _ => (some ⟨0, []⟩, none)) "doc-123" ⟨0, []⟩ rfl rfl

/-- The shared tail returns a non-nil error exactly when the submission reported that error,
and then the document is nil. -/
theorem firstResult_error_iff (r : SubmitResult) (d : Option Document) (e : Error) :
    firstResult r = .returns (d, some e) ↔ d = none ∧ r.2 = some e := by
  obtain ⟨sr, err⟩ := r
  cases err with
  | some e2 =>
    simp only [firstResult, Outcome.returns.injEq, Prod.mk.injEq, Option.some.injEq]
    constructor
    · rintro ⟨h1, h2⟩
      exact ⟨h1.symm, h2⟩
    · rintro ⟨h1, h2⟩
      exact ⟨h1.symm, h2⟩
  | none =>
    cases sr with
    | none => simp [firstResult]
    | some s =>
      by_cases hz : s.TotalResults = 0
      · simp [firstResult, hz]
      · cases hres : s.Results with
        | nil => simp [firstResult, hz, hres]
        | cons x xs => simp [firstResult, hz, hres]

/-- C2: for both lookups, a failed submission with error `e` yields a nil document and the
same `e`, whatever the result-set pointer is; and a lookup that returns a non-nil error
returns the error of the submission. -/
theorem lookup_error_passthrough {V : Type} (fmtV : V → String)
    (submit : String → String → SubmitResult) :
    (∀ id e, (submit "everything" (documentQuery id)).2 = some e →
        GetDocument submit id = .returns (none, some e)) ∧
    (∀ id d e, GetDocument submit id = .returns (d, some e) →
        d = none ∧ (submit "everything" (documentQuery id)).2 = some e) ∧
    (∀ docType field value e,
        (submit "everything" (documentByQuery docType field (fmtV value))).2 = some e →
        GetDocumentBy fmtV submit docType field value = .returns (none, some e)) ∧
    (∀ docType field value d e,
        GetDocumentBy fmtV submit docType field value = .returns (d, some e) →
        d = none ∧
          (submit "everything" (documentByQuery docType field (fmtV value))).2 = some e) := by
  refine ⟨?_, ?_, ?_, ?_⟩
  · intro id e h
    exact (firstResult_error_iff _ none e).2 ⟨rfl, h⟩
  · intro id d e h
    exact (firstResult_error_iff _ d e).1 h
  · intro docType field value e h
    exact (firstResult_error_iff _ none e).2 ⟨rfl, h⟩
  · intro docType field value d e h
    exact (firstResult_error_iff _ d e).1 h

theorem lookup_error_passthrough_witness :
    GetDocument (fun _ _ => (some ⟨3, [⟨"a"⟩]⟩, some ⟨"timeout"⟩)) "doc-123"
        = .returns (none, some ⟨"timeout"⟩) ∧
      GetDocumentBy (fun n : Nat => toString n) (fun _ _ => (none, some ⟨"timeout"⟩))
        "product" "sku" 42 = .returns (none, some ⟨"timeout"⟩) :=
  ⟨(lookup_error_passthrough (fun n : Nat => toString n)
      (fun _ _ => (some ⟨3, [⟨"a"⟩]⟩, some ⟨"timeout"⟩))).1 "doc-123" ⟨"timeout"⟩ rfl,
   (lookup_error_passthrough (fun n : Nat => toString n)
      (fun _ _ => (none, some ⟨"timeout"⟩))).2.2.1 "product" "sku" 42 ⟨"timeout"⟩ rfl⟩

/-- C3: `Refresh` returns true exactly when the master ref reported after the upstream refresh
differs from the revision the cache held, and in both cases the cache revision afterwards is
the reported master ref. -/
theorem Refresh_reports_change (upstream : Api → Api) (p : Nat) (w : World) :
    ((Refresh upstream p w).1 = true ↔
        (upstream (w.apis (w.proxies p).api)).masterRef
          ≠ (w.caches (w.proxies p).cache).revision) ∧
    ((Refresh upstream p w).2.caches (w.proxies p).cache).revision
        = (upstream (w.apis (w.proxies p).api)).masterRef ∧
    ((Refresh upstream p w).2.apis (w.proxies p).api).masterRef
        = (upstream (w.apis (w.proxies p).api)).masterRef := by
  refine ⟨?_, ?_, ?_⟩
  · simp only [Refresh, Function.update_same, bne_iff_ne, ne_eq]
    exact ⟨fun h h2 => h h2.symm, fun h h2 => h h2.symm⟩
  · simp [Refresh]
  · simp [Refresh]

theorem Refresh_reports_change_witness :
    (Refresh upstreamRef2 2 oneProxyWorld).1 = true ∧
      ((Refresh upstreamRef2 2 oneProxyWorld).2.caches 1).revision = "ref2" ∧
      (Refresh id 2 oneProxyWorld).1 = false ∧
      ((Refresh id 2 oneProxyWorld).2.caches 1).revision = "ref1" :=
  ⟨(Refresh_reports_change upstreamRef2 2 oneProxyWorld).1.2 (by decide),
   (Refresh_reports_change upstreamRef2 2 oneProxyWorld).2.1,
   by decide, by decide⟩

/-- What `New` does when `goprismic.Get` succeeds, spelled out field by field. -/
theorem New_ok (get : String → String → ApiConfig → Except Error Api) (u accessToken : String)
    (apiCfg : ApiConfig) (cfg : Config) (w : World) (client : Api)
    (hget : get u accessToken apiCfg = .ok client) :
    (New get u accessToken apiCfg cfg w).1 = (some (w.next + 2), none) ∧
    (New get u accessToken apiCfg cfg w).2.proxies (w.next + 2)
      = { cache := w.next + 1, api := w.next,
          Config := { CacheSize := cfg.CacheSize, TTL := cfg.TTL,
                      MasterRefresh := if cfg.MasterRefresh = 0 then Minute
                                       else cfg.MasterRefresh,
                      debug := apiCfg.Debug } } ∧
    (New get u accessToken apiCfg cfg w).2.caches (w.next + 1)
      = { NewCache cfg.CacheSize cfg.TTL with revision := client.masterRef } ∧
    (New get u accessToken apiCfg cfg w).2.apis w.next = client ∧
    (New get u accessToken apiCfg cfg w).2.loops = (w.next + 2) :: w.loops := by
  by_cases h0 : cfg.MasterRefresh = 0
  · simp [New, hget, h0, NewCache]
  · simp [New, hget, h0, NewCache]

/-- C4 as stated fails: with `MasterRefresh = -1` the construction succeeds and the interval
stored in the proxy's `Config`, the one `loopRefresh` hands to the ticker, is `-1`: neither
strictly positive nor the one-minute default. -/
theorem New_negative_interval_kept :
    (New getOk "https://repo.prismic.io/api" "" ⟨false⟩ ⟨10, 0, -1, false⟩ emptyWorld).1
        = (some 2, none) ∧
      loopRefreshPeriod 2
        (New getOk "https://repo.prismic.io/api" "" ⟨false⟩ ⟨10, 0, -1, false⟩ emptyWorld).2
        = -1 ∧
      ¬ (0 < loopRefreshPeriod 2
        (New getOk "https://repo.prismic.io/api" "" ⟨false⟩ ⟨10, 0, -1, false⟩ emptyWorld).2) := by
  decide

/-- C4, amended: when `New` succeeds, the interval stored in the proxy's `Config` and handed to
the refresh loop is one minute if `MasterRefresh` is zero and the given `MasterRefresh`
otherwise; hence it is strictly positive whenever the given `MasterRefresh` is not negative.
The proxy's refresh loop is the one that was started. -/
theorem New_refresh_interval (get : String → String → ApiConfig → Except Error Api)
    (u accessToken : String) (apiCfg : ApiConfig) (cfg : Config) (w w' : World) (p : Nat)
    (hnew : New get u accessToken apiCfg cfg w = ((some p, none), w')) :
    loopRefreshPeriod p w' = (w'.proxies p).Config.MasterRefresh ∧
    p ∈ w'.loops ∧
    (cfg.MasterRefresh = 0 → loopRefreshPeriod p w' = Minute) ∧
    (cfg.MasterRefresh ≠ 0 → loopRefreshPeriod p w' = cfg.MasterRefresh) ∧
    (0 ≤ cfg.MasterRefresh → 0 < loopRefreshPeriod p w') := by
  cases hget : get u accessToken apiCfg with
  | error e => simp [New, hget] at hnew
  | ok client =>
    obtain ⟨h1, h2, -, -, h5⟩ := New_ok get u accessToken apiCfg cfg w client hget
    rw [hnew] at h1 h2 h5
    simp only [Prod.mk.injEq, Option.some.injEq, and_true] at h1
    subst h1
    simp only at h2 h5
    refine ⟨rfl, ?_, ?_, ?_, ?_⟩
    · simp [h5]
    · intro h0
      simp [loopRefreshPeriod, h2, h0]
    · intro h0
      simp [loopRefreshPeriod, h2, h0]
    · intro hpos
      by_cases h0 : cfg.MasterRefresh = 0
      · simp [loopRefreshPeriod, h2, h0, Minute]
      · simp only [loopRefreshPeriod, h2, h0, if_false]
        exact lt_of_le_of_ne hpos (Ne.symm h0)

theorem New_refresh_interval_witness :
    loopRefreshPeriod 2 oneProxyWorld = Minute ∧ 0 < loopRefreshPeriod 2 oneProxyWorld :=
  ⟨(New_refresh_interval getOk "https://repo.prismic.io/api" "" ⟨true⟩ ⟨10, 0, 0, false⟩
      emptyWorld oneProxyWorld 2 rfl).2.2.1 rfl,
   (New_refresh_interval getOk "https://repo.prismic.io/api" "" ⟨true⟩ ⟨10, 0, 0, false⟩
      emptyWorld oneProxyWorld 2 rfl).2.2.2.2 (by decide)⟩

/-- C7: if `goprismic.Get` fails with `e`, `New` returns a nil proxy and exactly `e` and leaves
the world as it was (no cache allocated, no refresh loop started); if it succeeds, `New`
returns a non-nil proxy and a nil error, with its cache created and its loop started. -/
theorem New_error_handling (get : String → String → ApiConfig → Except Error Api)
    (u accessToken : String) (apiCfg : ApiConfig) (cfg : Config) (w : World) :
    (∀ e, get u accessToken apiCfg = .error e →
        New get u accessToken apiCfg cfg w = ((none, some e), w)) ∧
    (∀ client, get u accessToken apiCfg = .ok client →
        ∃ p w', New get u accessToken apiCfg cfg w = ((some p, none), w') ∧
          p ∈ w'.loops ∧ w'.next = w.next + 3) := by
  constructor
  · intro e hget
    simp [New, hget]
  · intro client hget
    refine ⟨w.next + 2, (New get u accessToken apiCfg cfg w).2, ?_, ?_, ?_⟩
    · exact Prod.ext (New_ok get u accessToken apiCfg cfg w client hget).1 rfl
    · rw [(New_ok get u accessToken apiCfg cfg w client hget).2.2.2.2]
      exact List.mem_cons_self _ _
    · simp [New, hget]

theorem New_error_handling_witness :
    New getFail "https://repo.prismic.io/api" "" ⟨false⟩ ⟨10, 0, 0, false⟩ emptyWorld
        = ((none, some ⟨"unreachable"⟩), emptyWorld) ∧
      ∃ p w', New getOk "https://repo.prismic.io/api" "" ⟨false⟩ ⟨10, 0, 0, false⟩ emptyWorld
          = ((some p, none), w') ∧ p ∈ w'.loops ∧ w'.next = emptyWorld.next + 3 :=
  ⟨(New_error_handling getFail "https://repo.prismic.io/api" "" ⟨false⟩ ⟨10, 0, 0, false⟩
      emptyWorld).1 ⟨"unreachable"⟩ rfl,
   (New_error_handling getOk "https://repo.prismic.io/api" "" ⟨false⟩ ⟨10, 0, 0, false⟩
      emptyWorld).2 ⟨"ref1"⟩ rfl⟩

/-- C5: `Refresh` writes only the revision of the proxy's cache (and lets the client refresh
itself): every proxy struct, hence its `Config` and its API handle, the entries, counters,
capacity and TTL of the proxy's cache, every other cache, every other client, the started
loops and the log are the same afterwards, whether or not the reference changed. -/
theorem Refresh_frame (upstream : Api → Api) (p : Nat) (w : World) :
    (Refresh upstream p w).2.proxies = w.proxies ∧
    ((Refresh upstream p w).2.proxies p).Config = (w.proxies p).Config ∧
    ((Refresh upstream p w).2.proxies p).api = (w.proxies p).api ∧
    ((Refresh upstream p w).2.caches (w.proxies p).cache).entries
      = (w.caches (w.proxies p).cache).entries ∧
    ((Refresh upstream p w).2.caches (w.proxies p).cache).Stats
      = (w.caches (w.proxies p).cache).Stats ∧
    ((Refresh upstream p w).2.caches (w.proxies p).cache).maxSize
      = (w.caches (w.proxies p).cache).maxSize ∧
    ((Refresh upstream p w).2.caches (w.proxies p).cache).ttl
      = (w.caches (w.proxies p).cache).ttl ∧
    (∀ c, c ≠ (w.proxies p).cache → (Refresh upstream p w).2.caches c = w.caches c) ∧
    (∀ a, a ≠ (w.proxies p).api → (Refresh upstream p w).2.apis a = w.apis a) ∧
    (Refresh upstream p w).2.next = w.next ∧
    (Refresh upstream p w).2.loops = w.loops ∧
    (Refresh upstream p w).2.log = w.log := by
  refine ⟨rfl, rfl, rfl, ?_, ?_, ?_, ?_, ?_, ?_, rfl, rfl, rfl⟩
  · simp [Refresh]
  · simp [Refresh]
  · simp [Refresh]
  · simp [Refresh]
  · intro c hc
    simp [Refresh, Function.update_noteq hc]
  · intro a ha
    simp [Refresh, Function.update_noteq ha]

theorem Refresh_frame_witness :
    (Refresh upstreamRef2 2 oneProxyWorld).1 = true ∧
      (Refresh upstreamRef2 2 oneProxyWorld).2.caches 0 = oneProxyWorld.caches 0 ∧
      ((Refresh upstreamRef2 2 oneProxyWorld).2.caches 1).entries
        = (oneProxyWorld.caches 1).entries ∧
      ((Refresh upstreamRef2 2 oneProxyWorld).2.proxies 2).Config
        = (oneProxyWorld.proxies 2).Config :=
  ⟨by decide,
   (Refresh_frame upstreamRef2 2 oneProxyWorld).2.2.2.2.2.2.2.1 0 (by decide),
   (Refresh_frame upstreamRef2 2 oneProxyWorld).2.2.2.1,
   (Refresh_frame upstreamRef2 2 oneProxyWorld).2.1⟩

/-- C6: `debug` only decides whether a line is logged. A refresh-loop tick on a proxy whose
`debug` has been set to any value `d` leaves the caches, the clients, the allocation pointer and
the started loops exactly as `Refresh` on the original proxy leaves them (so `Refresh` runs
on every tick and the resulting revision does not depend on `d`), and it does not touch the
proxy structs. Two successful calls of `New` with the same `Config` argument store the same
cache size, TTL and refresh interval, whatever the API configurations (and their `Debug`)
are. -/
theorem debug_only_affects_logging :
    (∀ (upstream : Api → Api) (d : Bool) (p : Nat) (w : World),
      (loopRefreshTick upstream p (withDebug d p w)).caches = (Refresh upstream p w).2.caches ∧
      (loopRefreshTick upstream p (withDebug d p w)).apis = (Refresh upstream p w).2.apis ∧
      (loopRefreshTick upstream p (withDebug d p w)).next = (Refresh upstream p w).2.next ∧
      (loopRefreshTick upstream p (withDebug d p w)).loops = (Refresh upstream p w).2.loops ∧
      (loopRefreshTick upstream p (withDebug d p w)).proxies = (withDebug d p w).proxies) ∧
    (∀ (get : String → String → ApiConfig → Except Error Api) (u accessToken : String)
        (apiCfg1 apiCfg2 : ApiConfig) (cfg : Config) (w w1 w2 : World) (p1 p2 : Nat),
      New get u accessToken apiCfg1 cfg w = ((some p1, none), w1) →
      New get u accessToken apiCfg2 cfg w = ((some p2, none), w2) →
      (w1.proxies p1).Config.CacheSize = (w2.proxies p2).Config.CacheSize ∧
      (w1.proxies p1).Config.TTL = (w2.proxies p2).Config.TTL ∧
      (w1.proxies p1).Config.MasterRefresh = (w2.proxies p2).Config.MasterRefresh ∧
      (w1.caches (w1.proxies p1).cache).maxSize = (w2.caches (w2.proxies p2).cache).maxSize ∧
      (w1.caches (w1.proxies p1).cache).ttl = (w2.caches (w2.proxies p2).cache).ttl) := by
  constructor
  · intro upstream d p w
    have hapi : ((withDebug d p w).proxies p).api = (w.proxies p).api := by
      simp [withDebug]
    have hcache : ((withDebug d p w).proxies p).cache = (w.proxies p).cache := by
      simp [withDebug]
    have hR : (Refresh upstream p (withDebug d p w)).2.caches = (Refresh upstream p w).2.caches ∧
        (Refresh upstream p (withDebug d p w)).2.apis = (Refresh upstream p w).2.apis := by
      have hc : (withDebug d p w).caches = w.caches := rfl
      have ha : (withDebug d p w).apis = w.apis := rfl
      simp only [Refresh, hc, ha]
      rw [hapi, hcache]
      exact ⟨rfl, rfl⟩
    dsimp only [loopRefreshTick]
    split_ifs
    · exact ⟨hR.1, hR.2, rfl, rfl, rfl⟩
    · exact ⟨hR.1, hR.2, rfl, rfl, rfl⟩
  · intro get u accessToken apiCfg1 apiCfg2 cfg w w1 w2 p1 p2 h1 h2
    cases hg1 : get u accessToken apiCfg1 with
    | error e => simp [New, hg1] at h1
    | ok c1 =>
      cases hg2 : get u accessToken apiCfg2 with
      | error e => simp [New, hg2] at h2
      | ok c2 =>
        obtain ⟨a1, a2, a3, -, -⟩ := New_ok get u accessToken apiCfg1 cfg w c1 hg1
        obtain ⟨b1, b2, b3, -, -⟩ := New_ok get u accessToken apiCfg2 cfg w c2 hg2
        rw [h1] at a1 a2 a3
        rw [h2] at b1 b2 b3
        simp only [Prod.mk.injEq, Option.some.injEq, and_true] at a1 b1
        subst a1
        subst b1
        simp only at a2 a3 b2 b3
        simp [a2, a3, b2, b3, NewCache]

theorem debug_only_affects_logging_witness :
    (oneProxyWorld.proxies 2).Config.MasterRefresh
        = ((New getOk "https://repo.prismic.io/api" "" ⟨false⟩ ⟨10, 0, 0, false⟩
            emptyWorld).2.proxies 2).Config.MasterRefresh ∧
      (loopRefreshTick upstreamRef2 2 (withDebug false 2 oneProxyWorld)).caches
        = (Refresh upstreamRef2 2 oneProxyWorld).2.caches ∧
      (loopRefreshTick upstreamRef2 2 (withDebug true 2 oneProxyWorld)).caches
        = (Refresh upstreamRef2 2 oneProxyWorld).2.caches :=
  ⟨(debug_only_affects_logging.2 getOk "https://repo.prismic.io/api" "" ⟨true⟩ ⟨false⟩
      ⟨10, 0, 0, false⟩ emptyWorld oneProxyWorld
      (New getOk "https://repo.prismic.io/api" "" ⟨false⟩ ⟨10, 0, 0, false⟩ emptyWorld).2
      2 2 rfl rfl).2.2.1,
   (debug_only_affects_logging.1 upstreamRef2 false 2 oneProxyWorld).1,
   (debug_only_affects_logging.1 upstreamRef2 true 2 oneProxyWorld).1⟩

/-- C9 fails on the code: a successful result set that announces one result but carries an
empty `Results` page makes both lookups fault on `sr.Results[0]` instead of returning. -/
theorem lookup_faults_on_empty_page :
    GetDocument (fun _ _ => (some ⟨1, []⟩, none)) "doc-123"
        = .panics "index out of range [0] with length 0" ∧
      GetDocumentBy (fun n : Nat => toString n) (fun _ _ => (some ⟨1, []⟩, none))
        "product" "sku" 42 = .panics "index out of range [0] with length 0" := by
  constructor <;> rfl

/-- Two lists that agree up to and after the first occurrence of `c` agree piecewise. -/
theorem split_first_occurrence (c : Char) :
    ∀ (l₁ l₂ r₁ r₂ : List Char), c ∉ l₁ → c ∉ l₂ → l₁ ++ c :: r₁ = l₂ ++ c :: r₂ →
      l₁ = l₂ ∧ r₁ = r₂
  | [], [], _, _, _, _, h => ⟨rfl, by simpa using h⟩
  | [], y :: ys, _, _, _, h2, h => by
    simp only [List.nil_append, List.cons_append, List.cons.injEq] at h
    exact absurd (List.mem_cons.2 (Or.inl h.1)) h2
  | x :: xs, [], _, _, h1, _, h => by
    simp only [List.nil_append, List.cons_append, List.cons.injEq] at h
    exact absurd (List.mem_cons.2 (Or.inl h.1.symm)) h1
  | x :: xs, y :: ys, r₁, r₂, h1, h2, h => by
    simp only [List.cons_append, List.cons.injEq] at h
    have ih := split_first_occurrence c xs ys r₁ r₂
      (fun hm => h1 (List.mem_cons_of_mem _ hm)) (fun hm => h2 (List.mem_cons_of_mem _ hm)) h.2
    exact ⟨by rw [h.1, ih.1], ih.2⟩

/-- The characters of the `GetDocument` query. -/
theorem documentQuery_data (id : String) :
    (documentQuery id).data = "[[:d = at(document.id, \"".data ++ (id.data ++ "\")]]".data) := by
  simp [documentQuery, String.data_append]

/-- The characters of the `GetDocumentBy` query. -/
theorem documentByQuery_data (t f v : String) :
    (documentByQuery t f v).data
      = "[[:d = at(my.".data ++ (t.data ++ '.' :: (f.data ++ ',' :: (' ' :: '"' :: (v.data
          ++ ("\")][:d = any(document.type, [\"".data ++ t.data ++ "\"])]]".data))))) := by
  simp [documentByQuery, String.data_append]

/-- C10 as stated fails: the calls `("t", "f, \"x", "y")` and `("t", "f", "x, \"y")` differ in
field and rendered value and build the same query string. -/
theorem documentByQuery_collision :
    ("t", "f, \"x", "y") ≠ ("t", "f", "x, \"y") ∧
      documentByQuery "t" "f, \"x" "y" = documentByQuery "t" "f" "x, \"y" := by
  decide

/-- C10, amended: different ids always build different `GetDocument` queries; and
`GetDocumentBy` calls whose document types contain no dot and whose field names contain no
comma build the same query only if type, field and rendered value all agree (the rendered
value may be any string). -/
theorem query_identifies_request :
    (∀ id₁ id₂ : String, documentQuery id₁ = documentQuery id₂ → id₁ = id₂) ∧
    (∀ t₁ f₁ v₁ t₂ f₂ v₂ : String,
      '.' ∉ t₁.data → '.' ∉ t₂.data → ',' ∉ f₁.data → ',' ∉ f₂.data →
      documentByQuery t₁ f₁ v₁ = documentByQuery t₂ f₂ v₂ →
      t₁ = t₂ ∧ f₁ = f₂ ∧ v₁ = v₂) := by
  constructor
  · intro id₁ id₂ h
    have hd := congrArg String.data h
    rw [documentQuery_data, documentQuery_data] at hd
    exact String.ext (List.append_cancel_right (List.append_cancel_left hd))
  · intro t₁ f₁ v₁ t₂ f₂ v₂ ht₁ ht₂ hf₁ hf₂ h
    have hd := congrArg String.data h
    rw [documentByQuery_data, documentByQuery_data] at hd
    obtain ⟨htd, hrest⟩ :=
      split_first_occurrence '.' _ _ _ _ ht₁ ht₂ (List.append_cancel_left hd)
    obtain ⟨hfd, hrest2⟩ := split_first_occurrence ',' _ _ _ _ hf₁ hf₂ hrest
    simp only [List.cons.injEq, true_and] at hrest2
    rw [htd] at hrest2
    exact ⟨String.ext htd, String.ext hfd, String.ext (List.append_cancel_right hrest2)⟩

theorem query_identifies_request_witness :
    documentByQuery "product" "sku" "a, \"b.c\"" ≠ documentByQuery "product" "name" "a, \"b.c\"" ∧
      documentQuery "a\")]]" ≠ documentQuery "a" :=
  ⟨fun h => absurd
      (query_identifies_request.2 "product" "sku" "a, \"b.c\"" "product" "name" "a, \"b.c\""
        (by decide) (by decide) (by decide) (by decide) h).2.1 (by decide),
   fun h => absurd (query_identifies_request.1 "a\")]]" "a" h) (by decide)⟩

end GoprismicProxy
